import Mathlib

/-!
Verification development for the SecKC Meshtastic bot's Hacker Jeopardy
game engine (`personalities/hacker_jeopardy.py`) and its SQLite
persistence layer (`services/database.py`).

The Python code is shallowly embedded:
* Python strings are Lean `String`s; the Python string methods used by the
  engine (`.lower()`, `.strip()`, `.startswith()`, slicing, `int()` on a
  digit string) are given executable list-based definitions (`pyLower`,
  `pyStrip`, ...) matching their behaviour on the ASCII command/answer
  text the engine handles.
* ISO-8601 wall-clock timestamp strings (compared lexicographically in
  the source, which on the fixed format agrees with chronological order)
  are modelled as `Nat` seconds; the source's string comparison
  `now.isoformat() > closes_at` becomes `now > closes_at` on `Nat`.
* The SQLite tables become lists of row structures; `lastrowid` of an
  AUTOINCREMENT table is `length + 1` (rows are never deleted);
  `UNIQUE(...)` constraints become an explicit conflict test performed by
  the insert (SQL `NULL` never equals anything, hence `nullableEqNat`).
* Threading timers become `*_timer_armed` flags plus explicit
  `Out.armQuestionTimer` / `Out.armCloseTimer` events; outbound channel
  posts and DMs become `Out.chan` / `Out.dm` events.
* `random.choice(available)` in `post_question` is determinised by an
  extra parameter `k`: the chosen element is `available[k % |available|]`.
-/

/-- Python `str.lower()` (the engine only lowercases ASCII command and
answer text; `Char.toLower` agrees with Python there). -/
def pyLower (s : String) : String := ⟨s.data.map Char.toLower⟩

/-- Python `str.strip()`: drop leading and trailing whitespace. -/
def pyStrip (s : String) : String :=
  ⟨((s.data.dropWhile Char.isWhitespace).reverse.dropWhile Char.isWhitespace).reverse⟩

/-- Python `str.rstrip()`: drop trailing whitespace. -/
def pyRStrip (s : String) : String :=
  ⟨(s.data.reverse.dropWhile Char.isWhitespace).reverse⟩

/-- Python `str.startswith(pre)`. -/
def pyStartsWith (s pre : String) : Bool := pre.data.isPrefixOf s.data

/-- Python slicing `s[n:]` (per character). -/
def pyDrop (s : String) (n : Nat) : String := ⟨s.data.drop n⟩

/-- Python `str.lstrip('!')`: drop every leading `!`. -/
def pyLstripBang (s : String) : String := ⟨s.data.dropWhile (· == '!')⟩

/-- Python `str.isdigit()` on the ASCII text the parser sees. -/
def pyIsDigit (s : String) : Bool := !s.data.isEmpty && s.data.all Char.isDigit

/-- Python `int(s)` for a string of digits. -/
def pyToNat (s : String) : Nat := s.data.foldl (fun n c => n * 10 + (c.toNat - 48)) 0

/-- Python `s.split(':', 1)` when a colon occurs: the text before the
first colon and the text after it; `none` when `s` has no colon. -/
def splitOnceColon (s : String) : Option (String × String) :=
  match s.data.dropWhile (· != ':') with
  | [] => none
  | _ :: rest => some (⟨s.data.takeWhile (· != ':')⟩, ⟨rest⟩)

/-- Python truthiness of an optional string (`None` and `""` are falsy). -/
def pyTruthyStr : Option String → Bool
  | some s => !(s == "")
  | none => false

/-- Python truthiness of an optional integer (`None` and `0` are falsy). -/
def pyTruthyNat : Option Nat → Bool
  | some n => !(n == 0)
  | none => false

/-- SQL `=` between two nullable integers: `NULL` compares equal to
nothing, not even to `NULL`. -/
def nullableEqNat : Option Nat → Option Nat → Bool
  | some a, some b => a == b
  | _, _ => false

/-! ## Question bank (`load_questions`, hacker_jeopardy.py lines 108-163) -/

/-- A question-bank record: the tuple `(q_text, answers, points)` built by
`load_questions`. -/
structure Question where
  text : String
  answers : List String
  points : Nat
deriving Repr, DecidableEq

/-- The parser's loop state: `current_q` (`None` before the first `Q:`
line), `current_points`, `current_answers`, and the accumulated list. -/
structure ParseState where
  current_q : Option String
  current_points : Nat
  current_answers : List String
  acc : List Question
deriving Repr, DecidableEq

/-- `if current_q and current_answers: questions.append(...)` — a block is
kept only when its question text is truthy and it has at least one
answer. -/
def flushQuestion (st : ParseState) : List Question :=
  if pyTruthyStr st.current_q && !st.current_answers.isEmpty then
    st.acc ++ [⟨st.current_q.getD "", st.current_answers, st.current_points⟩]
  else st.acc

/-- Parse a (stripped) `Q:` header line: `Q:100: text` keeps the digit
point value, anything else defaults to 100 points. -/
def parseQHeader (line : String) : Nat × String :=
  let rest := pyDrop line 2
  match splitOnceColon rest with
  | some p =>
      if pyIsDigit (pyStrip p.1) then (pyToNat (pyStrip p.1), pyStrip p.2)
      else (100, pyStrip rest)
  | none => (100, pyStrip rest)

/-- One iteration of the `for line in f` loop of `load_questions`. -/
def load_questions_step (st : ParseState) (rawLine : String) : ParseState :=
  let line := pyStrip rawLine
  if line == "" then st
  else if pyStartsWith line "Q:" then
    let flushed := flushQuestion st
    let header := parseQHeader line
    { current_q := some header.2, current_points := header.1,
      current_answers := [], acc := flushed }
  else if pyStartsWith line "A:" then
    { st with current_answers :=
        st.current_answers ++ [pyLower (pyStrip (pyDrop line 2))] }
  else st

/-- `load_questions` over the file's lines (file IO elided; the
`FileNotFoundError` fallback list is a separate code path not modelled
here). -/
def load_questions (lines : List String) : List Question :=
  flushQuestion (lines.foldl load_questions_step ⟨none, 100, [], []⟩)

/-! ## Database (`services/database.py`) -/

/-- A row of `hj_sessions`. Timestamps (`started_at`, `ended_at`) are not
consulted by any engine logic and are elided. -/
structure SessionRow where
  id : Nat
  status : String
  max_rounds : Nat
  current_round : Nat
deriving Repr, DecidableEq

/-- A row of `hj_session_players` (`joined_at` elided; insertion order is
the list order, which is what `ORDER BY joined_at` returns). -/
structure PlayerRow where
  session_id : Option Nat
  user_id : String
  username : String
deriving Repr, DecidableEq

/-- A row of `hj_session_questions`. -/
structure QuestionRow where
  id : Nat
  session_id : Option Nat
  question_id : String
  question_text : String
  point_value : Nat
  closes_at : Nat
  correct_answer : String
deriving Repr, DecidableEq

/-- A row of `hj_session_answers` (`answered_at` elided). `session_id`
and `question_id` are nullable columns: the engine passes its possibly-
`None` fields straight through. -/
structure AnswerRow where
  session_id : Option Nat
  question_id : Option Nat
  node_id : String
  username : String
  answer_text : String
  points_awarded : Int
deriving Repr, DecidableEq

/-- The bot database. `banned` keeps just the primary keys of
`banned_users` (the only column `is_banned` consults). -/
structure DB where
  sessions : List SessionRow
  players : List PlayerRow
  questions : List QuestionRow
  answers : List AnswerRow
  banned : List String
deriving Repr, DecidableEq

/-- `create_hj_session`: INSERT a fresh ACTIVE session with
`current_round = 0`; returns `lastrowid`. -/
def create_hj_session (db : DB) (max_rounds : Nat) : Nat × DB :=
  let sid := db.sessions.length + 1
  (sid, { db with sessions := db.sessions ++ [⟨sid, "ACTIVE", max_rounds, 0⟩] })

/-- `end_hj_session`: UPDATE status to ENDED for the matching session. -/
def end_hj_session (db : DB) (sid : Option Nat) : DB :=
  { db with sessions := db.sessions.map fun r =>
      if nullableEqNat (some r.id) sid then { r with status := "ENDED" } else r }

/-- `get_hj_session_info`: `(current_round, max_rounds, status)` of the
matching session, if any. -/
def get_hj_session_info (db : DB) (sid : Option Nat) :
    Option (Nat × Nat × String) :=
  (db.sessions.find? fun r => nullableEqNat (some r.id) sid).map
    fun r => (r.current_round, r.max_rounds, r.status)

/-- `record_hj_question`: INSERT the posted question, then
`UPDATE hj_sessions SET current_round = current_round + 1` for the
session; returns the question row's `lastrowid`. -/
def record_hj_question (db : DB) (sid : Option Nat) (question_id : String)
    (question_text : String) (point_value : Nat) (correct_answer : String)
    (closes_at : Nat) : Nat × DB :=
  let rowid := db.questions.length + 1
  let db1 := { db with questions := db.questions ++
      [(⟨rowid, sid, question_id, question_text, point_value, closes_at,
        correct_answer⟩ : QuestionRow)] }
  (rowid, { db1 with sessions := db1.sessions.map fun r =>
      if nullableEqNat (some r.id) sid then
        { r with current_round := r.current_round + 1 }
      else r })

/-- `record_hj_answer`: conditional INSERT under
`UNIQUE(session_id, question_id, node_id)`; `false` (and no write) when a
conflicting row exists. -/
def record_hj_answer (db : DB) (sid qid : Option Nat)
    (node_id username answer_text : String) (points_awarded : Int) :
    Bool × DB :=
  if db.answers.any fun r =>
      nullableEqNat r.session_id sid && nullableEqNat r.question_id qid &&
      r.node_id == node_id then
    (false, db)
  else
    (true, { db with answers := db.answers ++
        [⟨sid, qid, node_id, username, answer_text, points_awarded⟩] })

/-- `add_player_to_session`: conditional INSERT under
`UNIQUE(session_id, user_id)`. -/
def add_player_to_session (db : DB) (sid : Option Nat)
    (user_id username : String) : Bool × DB :=
  if db.players.any fun r =>
      nullableEqNat r.session_id sid && r.user_id == user_id then
    (false, db)
  else
    (true, { db with players := db.players ++ [⟨sid, user_id, username⟩] })

/-- `get_session_players`: the `(user_id, username)` pairs of a session in
join order. -/
def get_session_players (db : DB) (sid : Option Nat) :
    List (String × String) :=
  (db.players.filter fun r => nullableEqNat r.session_id sid).map
    fun r => (r.user_id, r.username)

/-- `is_banned`. -/
def is_banned (db : DB) (node_id : String) : Bool := db.banned.contains node_id

/-- `ban_user` (`INSERT OR REPLACE` on the primary key: presence-set
semantics; `banned_by`/`reason` are never read back). -/
def ban_user (db : DB) (node_id : String) : DB :=
  if db.banned.contains node_id then db
  else { db with banned := db.banned ++ [node_id] }

/-- `unban_user`. -/
def unban_user (db : DB) (node_id : String) : DB :=
  { db with banned := db.banned.filter fun b => !(b == node_id) }

/-- The rows of `hj_session_answers` belonging to one session
(`WHERE session_id = ?`). -/
def sessionRows (db : DB) (sid : Option Nat) : List AnswerRow :=
  db.answers.filter fun r => nullableEqNat r.session_id sid

/-- The `SUM(points_awarded)` of one `GROUP BY node_id, username` group of
the leaderboard query. -/
def groupTotal (rows : List AnswerRow) (node_id username : String) : Int :=
  ((rows.filter fun r => r.node_id == node_id && r.username == username).map
    (·.points_awarded)).sum

/-- The distinct `(node_id, username)` group keys, in first-occurrence
order (SQL leaves group order unspecified; this is one determinisation). -/
def groupKeys (rows : List AnswerRow) : List (String × String) :=
  ((rows.map fun r => (r.node_id, r.username))).eraseDups

/-- Insert into a list sorted by descending total. -/
def insertByTotalDesc (x : String × String × Int) :
    List (String × String × Int) → List (String × String × Int)
  | [] => [x]
  | y :: ys =>
      if x.2.2 > y.2.2 then x :: y :: ys else y :: insertByTotalDesc x ys

/-- `get_hj_session_leaderboard`: per-player `(username, total)` in
descending total order, limited. -/
def get_hj_session_leaderboard (db : DB) (sid : Option Nat) (limit : Nat) :
    List (String × Int) :=
  let rows := sessionRows db sid
  let entries := (groupKeys rows).map
    fun k => (k.1, k.2, groupTotal rows k.1 k.2)
  ((entries.foldr insertByTotalDesc []).take limit).map fun e => (e.2.1, e.2.2)

/-- A player's total score in a session: the signed sum of
`points_awarded` over that player's recorded answers there. -/
def sessionScore (db : DB) (sid : Nat) (node_id : String) : Int :=
  ((db.answers.filter fun r =>
      r.session_id == some sid && r.node_id == node_id).map
    (·.points_awarded)).sum

/-- The number of recorded answers for one
`(session, posted question, player)` triple. -/
def countTriple (db : DB) (sid qid : Nat) (node_id : String) : Nat :=
  (db.answers.filter fun r =>
      r.session_id == some sid && r.question_id == some qid &&
      r.node_id == node_id).length

/-! ## Game engine (`HackerJeopardyPersonality`) -/

/-- The engine's game states. -/
inductive GState
  | IDLE
  | ACTIVE
  | COLLECTING_ANSWERS
deriving Repr, DecidableEq

/-- `str(state)` as printed by `get_status`. -/
def stateRepr : GState → String
  | GState.IDLE => "IDLE"
  | GState.ACTIVE => "ACTIVE"
  | GState.COLLECTING_ANSWERS => "COLLECTING_ANSWERS"

/-- `f"...{self.session_id}..."` — Python prints `None` for an unset id. -/
def optNatRepr : Option Nat → String
  | some n => toString n
  | none => "None"

/-- The engine's mutable fields. `question_closes_at` is the ISO
timestamp string as `Nat` seconds (0 standing for the initial `None`,
which the source only ever reads while COLLECTING_ANSWERS, after the
field has been set). The two `threading.Timer` objects become
pending-flags. -/
structure Engine where
  state : GState
  session_id : Option Nat
  current_question : Option String
  current_answers : List String
  current_point_value : Nat
  current_question_db_id : Option Nat
  question_closes_at : Nat
  questions : List Question
  used_questions : List Nat
  admin_node_ids : List String
  answer_window : Nat
  break_between_questions : Nat
  max_rounds : Nat
  question_timer_armed : Bool
  close_timer_armed : Bool
deriving Repr, DecidableEq

/-- Observable effects: channel broadcasts, direct messages, and timer
arming. -/
inductive Out
  | chan (msg : String)
  | dm (recipient msg : String)
  | armQuestionTimer (delay : Nat)
  | armCloseTimer (delay : Nat)
deriving Repr, DecidableEq

/-- Result of a command handler: the reply sent back to the caller plus
the updated engine, database and emitted effects. -/
structure Res where
  reply : String
  engine : Engine
  db : DB
  outs : List Out
deriving Repr, DecidableEq

/-- Result of a timer callback (no reply). -/
structure PRes where
  engine : Engine
  db : DB
  outs : List Out
deriving Repr, DecidableEq

/-- `is_admin`: strip leading `!` and test membership in the configured
admin id list. -/
def is_admin (e : Engine) (user_id : String) : Bool :=
  e.admin_node_ids.contains (pyLstripBang user_id)

/-- `post_final_scores` (lines 530-546): the channel messages it emits. -/
def post_final_scores (e : Engine) (db : DB) : List Out :=
  if !pyTruthyNat e.session_id then []
  else
    let lb := get_hj_session_leaderboard db e.session_id 5
    if lb.isEmpty then [Out.chan "🎮 Game over! No scores recorded."]
    else
      let rec lines : Nat → List (String × Int) → String
        | _, [] => ""
        | i, entry :: rest =>
            let medal : String :=
              if i == 1 then "🥇" else if i == 2 then "🥈"
              else if i == 3 then "🥉" else "  "
            let u := entry.1
            let p := entry.2
            s!"{medal} {i}. {u}: {p} pts\n" ++ lines (i + 1) rest
      [Out.chan ("🏁 GAME OVER - FINAL SCORES:\n\n" ++ lines 1 lb ++
        "\nThanks for playing! 🎉")]

/-- `start_game` (lines 194-226). -/
def start_game (e : Engine) (db : DB) (admin_node_id : String) : Res :=
  if !(e.state == GState.IDLE) then ⟨"⚠️ Game already in progress!", e, db, []⟩
  else if !is_admin e admin_node_id then
    ⟨"❌ Only admins can start games!", e, db, []⟩
  else
    let created := create_hj_session db e.max_rounds
    let sid := created.1
    let mr := e.max_rounds
    let intro :=
      s!"🎮 HACKER JEOPARDY - GAME ON!\n\nSend !join to play! You can join anytime.\nQuestions posted here + DM\x27d to players.\nDM your answers back to me.\n\nCorrect = +points | Wrong = -points\n{mr} rounds total. Good luck! 🚀"
    ⟨s!"✅ Game #{sid} started! Players can !join",
     { e with session_id := some sid, state := GState.ACTIVE,
              used_questions := [], question_timer_armed := true },
     created.2,
     [Out.chan intro, Out.armQuestionTimer 30]⟩

/-- `stop_game` (lines 228-254). -/
def stop_game (e : Engine) (db : DB) (admin_node_id : String) : Res :=
  if e.state == GState.IDLE then ⟨"⚠️ No game in progress!", e, db, []⟩
  else if !is_admin e admin_node_id then
    ⟨"❌ Only admins can stop games!", e, db, []⟩
  else
    let e1 := { e with question_timer_armed := false,
                       close_timer_armed := false }
    let db1 := if pyTruthyNat e.session_id then end_hj_session db e.session_id
               else db
    let outs := post_final_scores e1 db1
    ⟨"✅ Game stopped!",
     { e1 with state := GState.IDLE, session_id := none,
               current_question := none },
     db1, outs⟩

/-- `close_question` (lines 339-358): a no-op unless COLLECTING_ANSWERS;
otherwise reveal `current_answers[0]`, clear the current-question fields,
return to ACTIVE and arm the break timer for the next question. The
database is untouched. -/
def close_question (e : Engine) : Engine × List Out :=
  if !(e.state == GState.COLLECTING_ANSWERS) then (e, [])
  else
    let firstAns := e.current_answers.headD ""
    ({ e with current_question := none, current_answers := [],
              current_point_value := 0, current_question_db_id := none,
              state := GState.ACTIVE, question_timer_armed := true },
     [Out.chan s!"✅ Answer: {firstAns}",
      Out.armQuestionTimer e.break_between_questions])

/-- The max-rounds check of `post_question` (lines 275-279): true when
the session exists and `current_round >= max_rounds`. -/
def hj_game_over (db : DB) (sid : Option Nat) : Bool :=
  match get_hj_session_info db sid with
  | some i => decide (i.1 ≥ i.2.1)
  | none => false

/-- `available = [q for i, q in enumerate(self.questions) if i not in
self.used_questions]` (line 287). -/
def available_questions (e : Engine) : List Question :=
  (e.questions.enum.filter fun p => !(e.used_questions.contains p.1)).map (·.2)

/-- `post_question` (lines 267-337), with the random choice determinised
by `k`. -/
def post_question (now k : Nat) (e : Engine) (db : DB) : PRes :=
  if e.state == GState.IDLE then ⟨e, db, []⟩
  else if hj_game_over db e.session_id then
    ⟨{ e with state := GState.IDLE }, end_hj_session db e.session_id,
     Out.chan "🏁 Final round complete!" :: post_final_scores e db⟩
  else if (available_questions e).isEmpty then
    let stopped := stop_game e db (e.admin_node_ids.headD "")
    ⟨stopped.engine, stopped.db,
     Out.chan "📚 Out of questions!" :: stopped.outs⟩
  else
    let available := available_questions e
    let q := available.getD (k % available.length) ⟨"", [], 0⟩
    let q_idx := e.questions.findIdx (· == q)
    let closes := now + e.answer_window
    let sidStr := optNatRepr e.session_id
    let recorded := record_hj_question db e.session_id
      s!"hj_{sidStr}_{q_idx}" q.text q.points (q.answers.headD "") closes
    let db1 := recorded.2
    let round_num := match get_hj_session_info db1 e.session_id with
      | some i => i.1
      | none => 0
    let mr := e.max_rounds
    let pts := q.points
    let qt := q.text
    let mins := e.answer_window / 60
    let chanMsg :=
      s!"❓ ROUND {round_num}/{mr} - {pts} POINTS\n{qt}\n\n⏱️ DM your answer within {mins} minutes!"
    let dmMsg := s!"❓ ROUND {round_num}/{mr} - {pts} pts\n{qt}"
    let dms := (get_session_players db1 e.session_id).map
      fun p => Out.dm p.1 dmMsg
    ⟨{ e with used_questions := e.used_questions ++ [q_idx],
              current_question := some q.text, current_answers := q.answers,
              current_point_value := q.points, question_closes_at := closes,
              current_question_db_id := some recorded.1,
              state := GState.COLLECTING_ANSWERS, close_timer_armed := true },
     db1,
     Out.chan chanMsg :: dms ++ [Out.armCloseTimer e.answer_window]⟩

/-- `process_answer` (lines 360-401). The engine fields are read, never
written; only the database can change. -/
def process_answer (now : Nat) (e : Engine) (db : DB)
    (text sender_id sender_name : String) : String × DB :=
  if is_banned db sender_id then ("🚫 You are banned from playing.", db)
  else if !(e.state == GState.COLLECTING_ANSWERS) then
    if e.state == GState.IDLE then
      ("⏸️ No game in progress. Wait for an admin to start one!", db)
    else ("⏳ No active question right now. Wait for the next one!", db)
  else if now > e.question_closes_at then
    ("⏰ Too late! Answer window closed.", db)
  else
    let text_lower := pyStrip (pyLower text)
    let is_correct := e.current_answers.contains text_lower
    let v := e.current_point_value
    let points_awarded : Int := if is_correct then (v : Int) else -(v : Int)
    let recorded := record_hj_answer db e.session_id e.current_question_db_id
      sender_id sender_name text points_awarded
    if !recorded.1 then ("⚠️ You already answered this question!", recorded.2)
    else if is_correct then (s!"✅ Correct! +{v} points! 🎉", recorded.2)
    else
      let firstAns := e.current_answers.headD ""
      (s!"❌ Wrong! -{v} points.\nCorrect answer: {firstAns}", recorded.2)

/-- `get_help` (lines 483-501). -/
def get_help (e : Engine) : String :=
  let base := "🎮 HACKER JEOPARDY\nQuestions posted to channel.\nDM your answers to me!\n\nCorrect = +points\nWrong = -points\nNo answer = 0\n\nCommands:\n!hj join - See rules\n!hj status - Game info\n!hj scores - Leaderboard"
  if !e.admin_node_ids.isEmpty then base ++ "\n\nAdmin: !hj start/stop"
  else base

/-- `get_status` (lines 503-513). -/
def get_status (e : Engine) (db : DB) : String :=
  if e.state == GState.IDLE then "⏸️ No game in progress."
  else
    match get_hj_session_info db e.session_id with
    | some i =>
        let sidStr := optNatRepr e.session_id
        let cr := i.1
        let mr := i.2.1
        let st := stateRepr e.state
        s!"🎮 Game #{sidStr}\nRound {cr}/{mr}\nStatus: {st}"
    | none => "🎮 Game in progress"

/-- `get_scores` (lines 515-528). -/
def get_scores (e : Engine) (db : DB) : String :=
  if !pyTruthyNat e.session_id then "⏸️ No game in progress."
  else
    let lb := get_hj_session_leaderboard db e.session_id 5
    if lb.isEmpty then "📊 No scores yet!"
    else
      let rec lines : Nat → List (String × Int) → String
        | _, [] => ""
        | i, entry :: rest =>
            let u := entry.1
            let p := entry.2
            s!"{i}. {u}: {p} pts\n" ++ lines (i + 1) rest
      pyRStrip ("📊 LEADERBOARD:\n" ++ lines 1 lb)

/-- The `!hj join` / `!join` branch of `handle_message` (lines 442-465). -/
def handle_join (e : Engine) (db : DB) (sender_id sender_name : String) :
    Res :=
  if !pyTruthyNat e.session_id then
    ⟨"⏸️ No game in progress. Wait for an admin to start one!", e, db, []⟩
  else
    let adding := add_player_to_session db e.session_id sender_id sender_name
    let added := adding.1
    let db1 := adding.2
    let player_count := (get_session_players db1 e.session_id).length
    let dmOuts :=
      if added && pyTruthyStr e.current_question &&
          e.state == GState.COLLECTING_ANSWERS then
        let round_num := match get_hj_session_info db1 e.session_id with
          | some i => i.1
          | none => 0
        let mr := e.max_rounds
        let v := e.current_point_value
        let cq := e.current_question.getD ""
        [Out.dm sender_id s!"❓ ROUND {round_num}/{mr} - {v} pts\n{cq}"]
      else []
    if added then
      ⟨s!"✅ You\x27re in! {player_count} players joined. Good luck! 🎮",
       e, db1, dmOuts⟩
    else ⟨"👍 You\x27re already in the game!", e, db1, dmOuts⟩

/-- The dispatch chain of `handle_message` (lines 403-481), over the
already-computed `text_lower = text.lower().strip()`. -/
def handle_message_cmd (now : Nat) (e : Engine) (db : DB)
    (text text_lower sender_id sender_name : String) : Res :=
  if text_lower == "!hj start" then start_game e db sender_id
  else if text_lower == "!hj stop" then stop_game e db sender_id
  else if text_lower == "!hj next" then
    if !is_admin e sender_id then
      ⟨"❌ Only admins can skip questions!", e, db, []⟩
    else
      let closed := close_question { e with close_timer_armed := false }
      ⟨"⏭️ Question skipped!", closed.1, db, closed.2⟩
  else if pyStartsWith text_lower "!hj ban " then
    if !is_admin e sender_id then
      ⟨"❌ Only admins can ban users!", e, db, []⟩
    else
      let target := pyStrip (pyDrop text 8)
      ⟨s!"🚫 Banned {target}", e, ban_user db target, []⟩
  else if pyStartsWith text_lower "!hj unban " then
    if !is_admin e sender_id then
      ⟨"❌ Only admins can unban users!", e, db, []⟩
    else
      let target := pyStrip (pyDrop text 10)
      ⟨s!"✅ Unbanned {target}", e, unban_user db target, []⟩
  else if text_lower == "!hj join" || text_lower == "!join" then
    handle_join e db sender_id sender_name
  else if text_lower == "!hj help" then ⟨get_help e, e, db, []⟩
  else if text_lower == "!hj status" || text_lower == "!hj info" then
    ⟨get_status e db, e, db, []⟩
  else if text_lower == "!hj scores" || text_lower == "!hj leaderboard" then
    ⟨get_scores e db, e, db, []⟩
  else if !pyStartsWith text_lower "!" then
    let pa := process_answer now e db text sender_id sender_name
    ⟨pa.1, e, pa.2, []⟩
  else ⟨"❓ Unknown command. Use !hj help for commands.", e, db, []⟩

/-- `handle_message` (lines 403-481): normalise the text once, then
dispatch. -/
def handle_message (now : Nat) (e : Engine) (db : DB)
    (text sender_id sender_name : String) : Res :=
  handle_message_cmd now e db text (pyStrip (pyLower text)) sender_id
    sender_name

/-- One concurrent event of the engine: an inbound message, or one of the
two single-fire timers going off (a cancelled timer may still fire; the
handlers' state guards are the defense, as in the source). -/
inductive Step : Engine × DB → Engine × DB → Prop
  | msg (e : Engine) (db : DB) (now : Nat) (text sender_id sender_name : String) :
      Step (e, db)
        ((handle_message now e db text sender_id sender_name).engine,
         (handle_message now e db text sender_id sender_name).db)
  | question_timer_fires (e : Engine) (db : DB) (now k : Nat) :
      Step (e, db)
        ((post_question now k { e with question_timer_armed := false } db).engine,
         (post_question now k { e with question_timer_armed := false } db).db)
  | close_timer_fires (e : Engine) (db : DB) :
      Step (e, db)
        ((close_question { e with close_timer_armed := false }).1, db)

/-! ## Shared lemmas about the embedding -/

theorem toNat_ofNat_isValidChar (m : Nat) (h : m.isValidChar) :
    (Char.ofNat m).toNat = m := by
  simp [Char.ofNat, dif_pos h, Char.ofNatAux, Char.toNat, UInt32.toNat,
    BitVec.toNat_ofNatLt]

theorem char_toLower_idem (c : Char) : c.toLower.toLower = c.toLower := by
  unfold Char.toLower
  by_cases h : c.toNat ≥ 65 ∧ c.toNat ≤ 90
  · rw [if_pos h]
    have hv : (c.toNat + 32).isValidChar := by left; omega
    rw [toNat_ofNat_isValidChar _ hv]
    rw [if_neg (by omega)]
  · rw [if_neg h, if_neg h]

/-- Lowercasing is idempotent, so a string produced by `pyLower` is
fixed by `pyLower`: the formal meaning of "is lowercased". -/
theorem pyLower_idem (s : String) : pyLower (pyLower s) = pyLower s := by
  simp only [pyLower, List.map_map]
  congr 1
  apply List.map_congr_left
  intro c _
  exact char_toLower_idem c

theorem nullableEqNat_some (o : Option Nat) (x : Nat) :
    nullableEqNat o (some x) = (o == some x) := by
  cases o <;> rfl

/-! ## Shared concrete fixtures -/

/-- An engine mid-round: question "What port does SSH use by default?"
worth 100 points, accepted answers `["22", "twenty-two"]`, answer window
closing at time 100, one admin. -/
def collectingEngine : Engine := {
  state := GState.COLLECTING_ANSWERS
  session_id := some 1
  current_question := some "What port does SSH use by default?"
  current_answers := ["22", "twenty-two"]
  current_point_value := 100
  current_question_db_id := some 1
  question_closes_at := 100
  questions := [⟨"What port does SSH use by default?", ["22", "twenty-two"], 100⟩]
  used_questions := [0]
  admin_node_ids := ["admin1"]
  answer_window := 120
  break_between_questions := 60
  max_rounds := 10
  question_timer_armed := false
  close_timer_armed := true }

/-- The same game between questions (ACTIVE, no open question). -/
def activeEngine : Engine := {
  state := GState.ACTIVE
  session_id := some 1
  current_question := none
  current_answers := []
  current_point_value := 0
  current_question_db_id := none
  question_closes_at := 100
  questions := [⟨"What port does SSH use by default?", ["22", "twenty-two"], 100⟩]
  used_questions := [0]
  admin_node_ids := ["admin1"]
  answer_window := 120
  break_between_questions := 60
  max_rounds := 10
  question_timer_armed := true
  close_timer_armed := false }

/-- Database matching `collectingEngine`: session 1 in round 1 of 10,
posted question row 1, no answers yet. -/
def baseDB : DB := {
  sessions := [⟨1, "ACTIVE", 10, 1⟩]
  players := []
  questions := [⟨1, some 1, "hj_1_0", "What port does SSH use by default?",
    100, 100, "22"⟩]
  answers := []
  banned := [] }

/-! ## C7 — starting while a game is in progress -/

/-- C7: when the engine is not IDLE, `start_game` replies "Game already
in progress!" and returns the engine and database (hence the existing
session id and the session table) completely unchanged. -/
theorem start_game_rejected_when_active (e : Engine) (db : DB)
    (sender : String) (h : e.state ≠ GState.IDLE) :
    start_game e db sender = ⟨"⚠️ Game already in progress!", e, db, []⟩ := by
  unfold start_game
  have hb : (e.state == GState.IDLE) = false := by
    simp [h]
  rw [hb]
  rfl

/-- Witness for C7 at a concrete ACTIVE engine. -/
theorem start_game_rejected_when_active_witness :
    start_game activeEngine baseDB "admin1" =
      ⟨"⚠️ Game already in progress!", activeEngine, baseDB, []⟩ :=
  start_game_rejected_when_active activeEngine baseDB "admin1" (by decide)

/-! ## C6 — closing a question is idempotent -/

/-- Number of channel broadcasts (the only channel message `close_question`
emits is the answer reveal). -/
def countChanMsgs (outs : List Out) : Nat :=
  (outs.filter fun o => match o with | Out.chan _ => true | _ => false).length

/-- Number of next-question timers armed. -/
def countQuestionTimerArms (outs : List Out) : Nat :=
  (outs.filter fun o =>
    match o with | Out.armQuestionTimer _ => true | _ => false).length

/-- C6: from COLLECTING_ANSWERS, running `close_question` twice in a row
reveals the answer exactly once and arms exactly one next-question timer:
the first call broadcasts one reveal and arms one break timer, and the
second call is a complete no-op because the state is no longer
COLLECTING_ANSWERS. -/
theorem close_question_idempotent (e : Engine)
    (h : e.state = GState.COLLECTING_ANSWERS) :
    close_question (close_question e).1 = ((close_question e).1, []) ∧
    (close_question e).1.state = GState.ACTIVE ∧
    countChanMsgs ((close_question e).2 ++ (close_question (close_question e).1).2) = 1 ∧
    countQuestionTimerArms
      ((close_question e).2 ++ (close_question (close_question e).1).2) = 1 := by
  unfold close_question
  rw [h]
  simp [countChanMsgs, countQuestionTimerArms]

/-- Witness for C6 at the concrete mid-round engine. -/
theorem close_question_idempotent_witness :
    close_question (close_question collectingEngine).1 =
      ((close_question collectingEngine).1, []) ∧
    (close_question collectingEngine).1.state = GState.ACTIVE ∧
    countChanMsgs ((close_question collectingEngine).2 ++
      (close_question (close_question collectingEngine).1).2) = 1 ∧
    countQuestionTimerArms ((close_question collectingEngine).2 ++
      (close_question (close_question collectingEngine).1).2) = 1 :=
  close_question_idempotent collectingEngine (by decide)

/-! ## C2 — late submissions -/

/-- C2 counterexample: a submission arriving exactly AT `closes_at`
(`now = question_closes_at = 100`) is NOT rejected as late — the source
compares with a strict `>` — so a correct answer at the boundary instant
is scored and recorded, contradicting the claim that submissions at or
after `closes_at` are rejected with no record written. -/
theorem late_rejection_boundary_counterexample :
    collectingEngine.question_closes_at = 100 ∧
    (process_answer 100 collectingEngine baseDB "22" "p1" "P1").1 =
      "✅ Correct! +100 points! 🎉" ∧
    (process_answer 100 collectingEngine baseDB "22" "p1" "P1").2.answers =
      [⟨some 1, some 1, "p1", "P1", "22", 100⟩] := by
  decide

/-- C2 (amended): a submission arriving strictly after `closes_at` is
rejected with the "Too late!" notice and writes no record, regardless of
the submitted text. -/
theorem late_submission_rejected (now : Nat) (e : Engine) (db : DB)
    (text sender_id sender_name : String)
    (hstate : e.state = GState.COLLECTING_ANSWERS)
    (hban : is_banned db sender_id = false)
    (hlate : e.question_closes_at < now) :
    process_answer now e db text sender_id sender_name =
      ("⏰ Too late! Answer window closed.", db) := by
  unfold process_answer
  rw [hban, hstate]
  simp [hlate]

/-- Witness for C2's amended theorem: one second past the deadline, the
correct text is still rejected and nothing is recorded. -/
theorem late_submission_rejected_witness :
    process_answer 101 collectingEngine baseDB "22" "p1" "P1" =
      ("⏰ Too late! Answer window closed.", baseDB) :=
  late_submission_rejected 101 collectingEngine baseDB "22" "p1" "P1"
    (by decide) (by decide) (by decide)

/-! ## C3 — answer matching (trim + lowercase membership) -/

/-- C3 counterexample: with accepted answers `{"22","twenty-two"}`,
submitting `" Twenty-Two "` is NOT rejected as wrong — trim + lowercase
normalises it to `"twenty-two"`, which is in the accepted set, so it is
scored +100 — contradicting the claim that it is rejected. -/
theorem matching_hyphen_counterexample :
    pyStrip (pyLower " Twenty-Two ") = "twenty-two" ∧
    (process_answer 50 collectingEngine baseDB " Twenty-Two " "p2" "P2").1 =
      "✅ Correct! +100 points! 🎉" ∧
    (process_answer 50 collectingEngine baseDB " Twenty-Two " "p2" "P2").2.answers =
      [⟨some 1, some 1, "p2", "P2", " Twenty-Two ", 100⟩] := by
  decide

/-- C3 (amended): matching is membership of the trimmed, lowercased
submission in the accepted-answer set, with no punctuation stripping.
With a 100-point question accepting `{"22","twenty-two"}`:
`"TwentyTwo"` normalises to `"twentytwo"`, is not in the set, and is
rejected as wrong; `" Twenty-Two "` normalises to `"twenty-two"`, IS in
the set, and awards +100; `"22"` awards +100; and a second, different
player submitting `"22"` after the first also awards +100. -/
theorem matching_is_trim_lowercase_membership :
    pyStrip (pyLower "TwentyTwo") = "twentytwo" ∧
    collectingEngine.current_answers.contains "twentytwo" = false ∧
    (process_answer 50 collectingEngine baseDB "TwentyTwo" "p1" "P1").1 =
      "❌ Wrong! -100 points.\nCorrect answer: 22" ∧
    pyStrip (pyLower " Twenty-Two ") = "twenty-two" ∧
    collectingEngine.current_answers.contains "twenty-two" = true ∧
    (process_answer 50 collectingEngine baseDB " Twenty-Two " "p2" "P2").1 =
      "✅ Correct! +100 points! 🎉" ∧
    (process_answer 50 collectingEngine baseDB "22" "p3" "P3").1 =
      "✅ Correct! +100 points! 🎉" ∧
    (process_answer 50 collectingEngine
        (process_answer 50 collectingEngine baseDB "22" "p3" "P3").2
        "22" "p4" "P4").1 = "✅ Correct! +100 points! 🎉" ∧
    sessionScore (process_answer 50 collectingEngine
        (process_answer 50 collectingEngine baseDB "22" "p3" "P3").2
        "22" "p4" "P4").2 1 "p3" = 100 ∧
    sessionScore (process_answer 50 collectingEngine
        (process_answer 50 collectingEngine baseDB "22" "p3" "P3").2
        "22" "p4" "P4").2 1 "p4" = 100 := by
  decide

/-! ## C8 — `next` outside COLLECTING_ANSWERS -/

/-- C8 counterexample: an admin issuing `!hj next` while no question is
open (state ACTIVE) gets the reply "⏭️ Question skipped!" — the very same
success reply as in the valid COLLECTING_ANSWERS state — not an
explanation that the command was issued outside its valid state. (The
no-state-change half of the claim does hold: engine and database are
returned unchanged.) -/
theorem next_reply_counterexample :
    activeEngine.state ≠ GState.COLLECTING_ANSWERS ∧
    (handle_message 0 activeEngine baseDB "!hj next" "admin1" "Admin").reply =
      "⏭️ Question skipped!" ∧
    (handle_message 0 activeEngine baseDB "!hj next" "admin1" "Admin").engine =
      activeEngine ∧
    (handle_message 0 activeEngine baseDB "!hj next" "admin1" "Admin").db =
      baseDB ∧
    (handle_message 0 collectingEngine baseDB "!hj next" "admin1" "Admin").reply =
      "⏭️ Question skipped!" := by
  decide

/-- C8 (amended): an admin `next` while the state is not
COLLECTING_ANSWERS causes no state change (`close_question` is a no-op
outside COLLECTING_ANSWERS and no close timer is pending outside a round),
but the reply is the unconditional success message "⏭️ Question skipped!",
not an invalid-state explanation. -/
theorem next_invalid_state_noop (now : Nat) (e : Engine) (db : DB)
    (sender_id sender_name : String)
    (hadmin : is_admin e sender_id = true)
    (hstate : e.state ≠ GState.COLLECTING_ANSWERS)
    (hct : e.close_timer_armed = false) :
    handle_message now e db "!hj next" sender_id sender_name =
      ⟨"⏭️ Question skipped!", e, db, []⟩ := by
  have he : { e with close_timer_armed := false } = e := by
    cases e
    simp_all
  have hb : (e.state == GState.COLLECTING_ANSWERS) = false := by
    simp [hstate]
  unfold handle_message handle_message_cmd
  simp +decide only [hadmin, Bool.not_true, Bool.false_eq_true, if_false,
    if_true, he]
  unfold close_question
  rw [hb]
  rfl

/-- Witness for C8's amended theorem at the concrete ACTIVE engine. -/
theorem next_invalid_state_noop_witness :
    handle_message 0 activeEngine baseDB "!hj next" "admin1" "Admin" =
      ⟨"⏭️ Question skipped!", activeEngine, baseDB, []⟩ :=
  next_invalid_state_noop 0 activeEngine baseDB "admin1" "Admin"
    (by decide) (by decide) (by decide)

/-! ## C9 — question-bank well-formedness -/

/-- Every answer in the list is fixed by lowercasing. -/
def GoodAnswerList (l : List String) : Prop := ∀ a ∈ l, pyLower a = a

/-- Every record has at least one accepted answer and all its answers are
lowercased. -/
def GoodBank (qs : List Question) : Prop :=
  ∀ q ∈ qs, q.answers ≠ [] ∧ GoodAnswerList q.answers

/-- Invariant carried through the parse loop. -/
def GoodParseState (st : ParseState) : Prop :=
  GoodBank st.acc ∧ GoodAnswerList st.current_answers

theorem flushQuestion_good (st : ParseState) (h : GoodParseState st) :
    GoodBank (flushQuestion st) := by
  unfold flushQuestion
  split
  · rename_i hcond
    intro q hq
    rcases List.mem_append.mp hq with hacc | hone
    · exact h.1 q hacc
    · have hq2 : q = ⟨st.current_q.getD "", st.current_answers,
          st.current_points⟩ := by
        simpa using hone
      subst hq2
      refine ⟨?_, h.2⟩
      have hne : (!st.current_answers.isEmpty) = true :=
        (Bool.and_eq_true _ _).mp hcond |>.2
      cases hca : st.current_answers with
      | nil => rw [hca] at hne; simp [List.isEmpty] at hne
      | cons a t => simp
  · exact h.1

theorem load_questions_step_good (st : ParseState) (line : String)
    (h : GoodParseState st) :
    GoodParseState (load_questions_step st line) := by
  simp only [load_questions_step]
  split
  · exact h
  · split
    · exact ⟨flushQuestion_good st h, by intro a ha; simp at ha⟩
    · split
      · refine ⟨h.1, ?_⟩
        intro a ha
        rcases List.mem_append.mp ha with hold | hnew
        · exact h.2 a hold
        · have : a = pyLower (pyStrip (pyDrop (pyStrip line) 2)) := by
            simpa using hnew
          subst this
          exact pyLower_idem _
      · exact h

theorem foldl_load_questions_good (lines : List String) :
    ∀ st : ParseState, GoodParseState st →
      GoodParseState (lines.foldl load_questions_step st) := by
  induction lines with
  | nil => intro st h; exact h
  | cons line rest ih =>
      intro st h
      exact ih _ (load_questions_step_good st line h)

/-- C9 counterexample: a `Q:0:` header parses as a specified digit point
value of zero — `"0".isdigit()` holds — so the loaded record's point
value is 0, not a strictly positive integer. -/
theorem question_bank_zero_points_counterexample :
    load_questions ["Q:0: worth nothing?", "A: zilch"] =
      [⟨"worth nothing?", ["zilch"], 0⟩] ∧
    (Question.mk "worth nothing?" ["zilch"] 0).points = 0 := by
  decide

/-- C9 (amended): every record returned by the question-bank load has at
least one accepted answer (incomplete trailing blocks are discarded) and
all accepted answers are lowercased; the point value is a natural number
parsed from the digit field — which may be zero — and defaults to 100
when the point field is unspecified or malformed. -/
theorem load_questions_wellformed :
    (∀ (lines : List String) (q : Question), q ∈ load_questions lines →
      q.answers ≠ [] ∧ ∀ a ∈ q.answers, pyLower a = a) ∧
    load_questions ["Q: no points here?", "A: YES"] =
      [⟨"no points here?", ["yes"], 100⟩] ∧
    load_questions ["Q:abc: malformed points", "A: ok"] =
      [⟨"abc: malformed points", ["ok"], 100⟩] ∧
    load_questions ["Q:50: kept?", "A: yes", "Q:75: trailing with no answer"] =
      [⟨"kept?", ["yes"], 50⟩] := by
  refine ⟨?_, by decide, by decide, by decide⟩
  intro lines q hq
  have hinit : GoodParseState ⟨none, 100, [], []⟩ := by
    constructor
    · intro x hx; simp at hx
    · intro a ha; simp at ha
  have hfold := foldl_load_questions_good lines _ hinit
  exact flushQuestion_good _ hfold q hq

/-- Witness for C9's amended theorem: the record loaded from a concrete
two-line bank is well-formed. -/
theorem load_questions_wellformed_witness :
    (Question.mk "kept?" ["yes"] 50).answers ≠ [] ∧
    ∀ a ∈ (Question.mk "kept?" ["yes"] 50).answers, pyLower a = a :=
  load_questions_wellformed.1
    ["Q:50: kept?", "A: yes", "Q:75: trailing with no answer"]
    (Question.mk "kept?" ["yes"] 50) (by decide)

/-! ## C1 / C5 — answer recording, uniqueness and scoring -/

theorem any_iff_filter_pos {α : Type} (l : List α) (p : α → Bool) :
    l.any p = true ↔ 0 < (l.filter p).length := by
  rw [List.any_eq_true, List.length_pos]
  constructor
  · rintro ⟨x, hx, hpx⟩ hnil
    have hmem := List.mem_filter.mpr ⟨hx, hpx⟩
    rw [hnil] at hmem
    simp at hmem
  · intro h
    match hem : l.filter p with
    | [] => exact absurd hem h
    | x :: t =>
        have hx := List.mem_filter.mp (hem ▸ List.mem_cons_self x t)
        exact ⟨x, hx.1, hx.2⟩

/-- The `UNIQUE(session_id, question_id, node_id)` conflict test of
`record_hj_answer`, restated through `countTriple` when both ids are
non-NULL. -/
theorem record_hj_answer_spec (db : DB) (sid qid : Nat)
    (node u t : String) (p : Int) :
    (0 < countTriple db sid qid node →
      record_hj_answer db (some sid) (some qid) node u t p = (false, db)) ∧
    (countTriple db sid qid node = 0 →
      record_hj_answer db (some sid) (some qid) node u t p =
        (true, { db with answers := db.answers ++
          [⟨some sid, some qid, node, u, t, p⟩] })) := by
  have hpred : ∀ r : AnswerRow,
      (nullableEqNat r.session_id (some sid) &&
       nullableEqNat r.question_id (some qid) && (r.node_id == node)) =
      ((r.session_id == some sid) && (r.question_id == some qid) &&
       (r.node_id == node)) := by
    intro r
    rw [nullableEqNat_some, nullableEqNat_some]
  have hany : (db.answers.any fun r =>
      nullableEqNat r.session_id (some sid) &&
      nullableEqNat r.question_id (some qid) && (r.node_id == node)) = true ↔
      0 < countTriple db sid qid node := by
    unfold countTriple
    simp only [hpred]
    exact any_iff_filter_pos _ _
  constructor
  · intro h
    unfold record_hj_answer
    rw [if_pos (hany.mpr h)]
  · intro h
    unfold record_hj_answer
    rw [if_neg]
    intro hc
    have := hany.mp hc
    omega

/-- `process_answer` once the banned / state / lateness guards have all
passed: judge the normalised text and run the conditional insert. -/
theorem process_answer_open (now : Nat) (e : Engine) (db : DB)
    (text sender_id sender_name : String)
    (hstate : e.state = GState.COLLECTING_ANSWERS)
    (hban : is_banned db sender_id = false)
    (hlate : ¬ e.question_closes_at < now) :
    process_answer now e db text sender_id sender_name =
      (let text_lower := pyStrip (pyLower text)
       let is_correct := e.current_answers.contains text_lower
       let v := e.current_point_value
       let points_awarded : Int := if is_correct then (v : Int) else -(v : Int)
       let recorded := record_hj_answer db e.session_id
         e.current_question_db_id sender_id sender_name text points_awarded
       if !recorded.1 then
         ("⚠️ You already answered this question!", recorded.2)
       else if is_correct then (s!"✅ Correct! +{v} points! 🎉", recorded.2)
       else
         let firstAns := e.current_answers.headD ""
         (s!"❌ Wrong! -{v} points.\nCorrect answer: {firstAns}", recorded.2)) := by
  unfold process_answer
  rw [hban, hstate]
  simp [hlate]

/-- Appending one answer row changes `countTriple` by one exactly on that
row's key. -/
theorem countTriple_append (db : DB) (row : AnswerRow) (s q : Nat)
    (n : String) :
    countTriple { db with answers := db.answers ++ [row] } s q n =
      countTriple db s q n +
        (if ((row.session_id == some s) && (row.question_id == some q) &&
            (row.node_id == n)) = true then 1 else 0) := by
  unfold countTriple
  rw [List.filter_append, List.length_append]
  congr 1
  by_cases h : ((row.session_id == some s) && (row.question_id == some q) &&
      (row.node_id == n)) = true
  · rw [if_pos h]
    simp [List.filter, h]
  · rw [if_neg h]
    simp only [Bool.not_eq_true] at h
    simp [List.filter, h]

/-- Appending one answer row adds its `points_awarded` to exactly the
scores of its own `(session, player)`. -/
theorem sessionScore_append (db : DB) (row : AnswerRow) (sid : Nat)
    (node : String) :
    sessionScore { db with answers := db.answers ++ [row] } sid node =
      sessionScore db sid node +
        (if ((row.session_id == some sid) && (row.node_id == node)) = true
         then row.points_awarded else 0) := by
  unfold sessionScore
  rw [List.filter_append, List.map_append, List.sum_append]
  congr 1
  by_cases h : ((row.session_id == some sid) && (row.node_id == node)) = true
  · rw [if_pos h]
    simp [List.filter, h]
  · rw [if_neg h]
    simp only [Bool.not_eq_true] at h
    simp [List.filter, h]

/-- When a player always appears under one username, the leaderboard's
`GROUP BY node_id, username` sum equals the plain signed sum of that
player's `points_awarded` in the session. -/
theorem groupTotal_eq_sessionScore (db : DB) (sid : Nat)
    (node uname : String)
    (h : ∀ r ∈ db.answers, r.session_id = some sid → r.node_id = node →
      r.username = uname) :
    groupTotal (sessionRows db (some sid)) node uname =
      sessionScore db sid node := by
  unfold groupTotal sessionRows sessionScore
  rw [List.filter_filter]
  congr 1
  congr 1
  apply List.filter_congr
  intro r hr
  rw [nullableEqNat_some]
  by_cases hs : (r.session_id == some sid) = true
  · by_cases hn : (r.node_id == node) = true
    · have hu : r.username = uname :=
        h r hr (by simpa using hs) (by simpa using hn)
      simp [hs, hn, hu]
    · rw [Bool.not_eq_true] at hn
      simp [hs, hn]
  · rw [Bool.not_eq_true] at hs
    simp [hs]

/-- In-window `process_answer` at the level of the uniqueness counter:
a duplicate attempt replies "already answered" and leaves the database
as it was; a fresh attempt appends exactly one row carrying
`± current_point_value`. -/
theorem process_answer_record (now : Nat) (e : Engine) (db : DB)
    (text sender_id sender_name : String) (sid qid : Nat)
    (hstate : e.state = GState.COLLECTING_ANSWERS)
    (hban : is_banned db sender_id = false)
    (hlate : ¬ e.question_closes_at < now)
    (hsid : e.session_id = some sid)
    (hqid : e.current_question_db_id = some qid) :
    (0 < countTriple db sid qid sender_id →
       process_answer now e db text sender_id sender_name =
         ("⚠️ You already answered this question!", db)) ∧
    (countTriple db sid qid sender_id = 0 →
       (process_answer now e db text sender_id sender_name).2 =
         { db with answers := db.answers ++
             [⟨some sid, some qid, sender_id, sender_name, text,
               if e.current_answers.contains (pyStrip (pyLower text))
               then (e.current_point_value : Int)
               else -(e.current_point_value : Int)⟩] }) := by
  have hopen := process_answer_open now e db text sender_id sender_name
    hstate hban hlate
  rw [hsid, hqid] at hopen
  constructor
  · intro hc
    have hrec := (record_hj_answer_spec db sid qid sender_id sender_name text
      (if e.current_answers.contains (pyStrip (pyLower text))
       then (e.current_point_value : Int)
       else -(e.current_point_value : Int))).1 hc
    rw [hopen]
    simp only [hrec]
    simp
  · intro h0
    have hrec := (record_hj_answer_spec db sid qid sender_id sender_name text
      (if e.current_answers.contains (pyStrip (pyLower text))
       then (e.current_point_value : Int)
       else -(e.current_point_value : Int))).2 h0
    rw [hopen]
    simp only [hrec]
    by_cases hcor : pyStrip (pyLower text) ∈ e.current_answers
    · simp [hcor]
    · simp [hcor]

/-- C1: for a `(session, posted question, player)` triple, at most one
SubmittedAnswer is ever recorded. Within the answer window: a player's
first submission on the current question is persisted (exactly one row
for the triple afterwards); a second attempt by the same player is
rejected with the "already answered" reply, writes nothing, and leaves
the player's total session score unchanged; and `process_answer` can
never push a triple's row count above one. -/
theorem answer_unique_per_player (now : Nat) (e : Engine) (db : DB)
    (text sender_id sender_name : String) (sid qid : Nat)
    (hstate : e.state = GState.COLLECTING_ANSWERS)
    (hban : is_banned db sender_id = false)
    (hlate : ¬ e.question_closes_at < now)
    (hsid : e.session_id = some sid)
    (hqid : e.current_question_db_id = some qid) :
    (countTriple db sid qid sender_id = 0 →
       (process_answer now e db text sender_id sender_name).2.answers =
         db.answers ++ [⟨some sid, some qid, sender_id, sender_name, text,
           if e.current_answers.contains (pyStrip (pyLower text))
           then (e.current_point_value : Int)
           else -(e.current_point_value : Int)⟩] ∧
       countTriple (process_answer now e db text sender_id sender_name).2
         sid qid sender_id = 1) ∧
    (0 < countTriple db sid qid sender_id →
       process_answer now e db text sender_id sender_name =
         ("⚠️ You already answered this question!", db) ∧
       sessionScore (process_answer now e db text sender_id sender_name).2
         sid sender_id = sessionScore db sid sender_id) ∧
    (∀ (s q : Nat) (n : String), countTriple db s q n ≤ 1 →
       countTriple (process_answer now e db text sender_id sender_name).2
         s q n ≤ 1) := by
  obtain ⟨hdup, hfresh⟩ := process_answer_record now e db text sender_id
    sender_name sid qid hstate hban hlate hsid hqid
  refine ⟨?_, ?_, ?_⟩
  · intro h0
    have h2 := hfresh h0
    constructor
    · rw [h2]
    · rw [h2, countTriple_append]
      have hp : (((some sid : Option Nat) == some sid) &&
          ((some qid : Option Nat) == some qid) &&
          (sender_id == sender_id)) = true := by simp
      rw [if_pos hp, h0]
  · intro hc
    have h2 := hdup hc
    exact ⟨h2, by rw [h2]⟩
  · intro s q n hle
    by_cases hc : 0 < countTriple db sid qid sender_id
    · rw [hdup hc]
      exact hle
    · have h0 : countTriple db sid qid sender_id = 0 := by omega
      rw [hfresh h0, countTriple_append]
      by_cases hmatch : (((some sid : Option Nat) == some s) &&
          ((some qid : Option Nat) == some q) && (sender_id == n)) = true
      · have hsq : (sid = s ∧ qid = q) ∧ sender_id = n := by
          simpa using hmatch
        obtain ⟨⟨h1, h2⟩, h3⟩ := hsq
        subst h1; subst h2; subst h3
        rw [if_pos hmatch]
        omega
      · rw [if_neg hmatch]
        simpa using hle

/-- Witness for C1: both the fresh-submission and duplicate-rejection
halves, at a concrete mid-round game. -/
theorem answer_unique_per_player_witness :
    ((process_answer 50 collectingEngine baseDB "22" "p1" "P1").2.answers =
       baseDB.answers ++ [⟨some 1, some 1, "p1", "P1", "22",
         if collectingEngine.current_answers.contains (pyStrip (pyLower "22"))
         then (collectingEngine.current_point_value : Int)
         else -(collectingEngine.current_point_value : Int)⟩] ∧
     countTriple (process_answer 50 collectingEngine baseDB "22" "p1" "P1").2
       1 1 "p1" = 1) ∧
    (process_answer 50 collectingEngine
       (process_answer 50 collectingEngine baseDB "22" "p1" "P1").2
       "twenty-two" "p1" "P1" =
       ("⚠️ You already answered this question!",
        (process_answer 50 collectingEngine baseDB "22" "p1" "P1").2) ∧
     sessionScore (process_answer 50 collectingEngine
       (process_answer 50 collectingEngine baseDB "22" "p1" "P1").2
       "twenty-two" "p1" "P1").2 1 "p1" =
       sessionScore (process_answer 50 collectingEngine baseDB "22" "p1"
         "P1").2 1 "p1") :=
  ⟨(answer_unique_per_player 50 collectingEngine baseDB "22" "p1" "P1" 1 1
      rfl (by decide) (by decide) rfl rfl).1 (by decide),
   ((answer_unique_per_player 50 collectingEngine
      (process_answer 50 collectingEngine baseDB "22" "p1" "P1").2
      "twenty-two" "p1" "P1" 1 1 rfl (by decide) (by decide) rfl rfl).2.1
      (by decide))⟩

/-- C5: a recorded answer carries `points_awarded = +points` of the
current question when the normalised text is in the accepted set and
`-points` (the same magnitude) otherwise; recording it moves the player's
total session score by exactly that signed amount; and the leaderboard's
per-player total (`SUM(points_awarded)` grouped by player) is the signed
sum of `points_awarded` over that player's recorded answers in the
session. -/
theorem points_awarded_signed_sum (now : Nat) (e : Engine) (db : DB)
    (text sender_id sender_name : String) (sid qid : Nat)
    (hstate : e.state = GState.COLLECTING_ANSWERS)
    (hban : is_banned db sender_id = false)
    (hlate : ¬ e.question_closes_at < now)
    (hsid : e.session_id = some sid)
    (hqid : e.current_question_db_id = some qid)
    (hfresh : countTriple db sid qid sender_id = 0) :
    ((process_answer now e db text sender_id sender_name).2.answers =
       db.answers ++ [⟨some sid, some qid, sender_id, sender_name, text,
         if e.current_answers.contains (pyStrip (pyLower text))
         then (e.current_point_value : Int)
         else -(e.current_point_value : Int)⟩]) ∧
    (sessionScore (process_answer now e db text sender_id sender_name).2
       sid sender_id =
     sessionScore db sid sender_id +
       (if e.current_answers.contains (pyStrip (pyLower text))
        then (e.current_point_value : Int)
        else -(e.current_point_value : Int))) ∧
    (∀ (db' : DB) (sid' : Nat) (node uname : String),
       (∀ r ∈ db'.answers, r.session_id = some sid' → r.node_id = node →
         r.username = uname) →
       groupTotal (sessionRows db' (some sid')) node uname =
         sessionScore db' sid' node) := by
  obtain ⟨_, hrec⟩ := process_answer_record now e db text sender_id
    sender_name sid qid hstate hban hlate hsid hqid
  have h2 := hrec hfresh
  refine ⟨by rw [h2], ?_, ?_⟩
  · rw [h2, sessionScore_append]
    have hp : ((((some sid : Option Nat) == some sid)) &&
        (sender_id == sender_id)) = true := by simp
    rw [if_pos hp]
  · intro db' sid' node uname h
    exact groupTotal_eq_sessionScore db' sid' node uname h

/-- Witness for C5: a wrong answer records −100 and moves the score by
−100; the leaderboard total agrees with the signed sum. -/
theorem points_awarded_signed_sum_witness :
    ((process_answer 50 collectingEngine baseDB "TwentyTwo" "p1" "P1").2.answers =
       baseDB.answers ++ [⟨some 1, some 1, "p1", "P1", "TwentyTwo",
         if collectingEngine.current_answers.contains
             (pyStrip (pyLower "TwentyTwo"))
         then (collectingEngine.current_point_value : Int)
         else -(collectingEngine.current_point_value : Int)⟩]) ∧
    (sessionScore (process_answer 50 collectingEngine baseDB "TwentyTwo"
       "p1" "P1").2 1 "p1" =
     sessionScore baseDB 1 "p1" +
       (if collectingEngine.current_answers.contains
            (pyStrip (pyLower "TwentyTwo"))
        then (collectingEngine.current_point_value : Int)
        else -(collectingEngine.current_point_value : Int))) ∧
    (∀ (db' : DB) (sid' : Nat) (node uname : String),
       (∀ r ∈ db'.answers, r.session_id = some sid' → r.node_id = node →
         r.username = uname) →
       groupTotal (sessionRows db' (some sid')) node uname =
         sessionScore db' sid' node) :=
  points_awarded_signed_sum 50 collectingEngine baseDB "TwentyTwo" "p1" "P1"
    1 1 rfl (by decide) (by decide) rfl rfl (by decide)

/-! ## C4 — round counter: monotone, bounded by `max_rounds` -/

/-- Well-formedness of the `hj_sessions` table as the code maintains it:
AUTOINCREMENT ids are positive and at most the row count (hence fresh ids
never collide), ids are distinct, and every session's round counter is
within its round budget. -/
def SessionsWF (l : List SessionRow) : Prop :=
  (∀ r ∈ l, r.id ≤ l.length) ∧
  (l.map (fun r => r.id)).Nodup ∧
  (∀ r ∈ l, r.current_round ≤ r.max_rounds)

/-- Per-session round counters never decrease (and the budget never
changes) from one table state to the next. -/
def RoundsMono (l l' : List SessionRow) : Prop :=
  ∀ (x : Nat) (r : SessionRow), l.find? (fun s => s.id == x) = some r →
    ∃ r', l'.find? (fun s => s.id == x) = some r' ∧
      r.current_round ≤ r'.current_round ∧ r'.max_rounds = r.max_rounds

/-- One step of the session table: preserves well-formedness and never
decreases any round counter. -/
def SessionsEvolve (l l' : List SessionRow) : Prop :=
  (SessionsWF l → SessionsWF l') ∧ RoundsMono l l'

theorem sessionsEvolve_refl (l : List SessionRow) : SessionsEvolve l l :=
  ⟨id, fun _ r h => ⟨r, h, le_refl _, rfl⟩⟩

theorem sessionsEvolve_append_new (l : List SessionRow) (m : Nat) :
    SessionsEvolve l (l ++ [⟨l.length + 1, "ACTIVE", m, 0⟩]) := by
  constructor
  · rintro ⟨hbound, hnd, hround⟩
    refine ⟨?_, ?_, ?_⟩
    · intro r hr
      rw [List.length_append]
      rcases List.mem_append.mp hr with h | h
      · have := hbound r h
        simp
        omega
      · simp at h
        subst h
        simp
    · rw [List.map_append, List.nodup_append]
      refine ⟨hnd, by simp, ?_⟩
      intro x hx
      simp only [List.map_cons, List.map_nil, List.mem_singleton]
      rcases List.mem_map.mp hx with ⟨a, ha, rfl⟩
      have := hbound a ha
      simp
      omega
    · intro r hr
      rcases List.mem_append.mp hr with h | h
      · exact hround r h
      · simp at h
        subst h
        simp
  · intro x r h
    refine ⟨r, ?_, le_refl _, rfl⟩
    rw [List.find?_append, h]
    rfl

theorem find?_map_id_preserving (l : List SessionRow)
    (f : SessionRow → SessionRow) (hid : ∀ r, (f r).id = r.id) (x : Nat) :
    (l.map f).find? (fun s => s.id == x) =
      (l.find? (fun s => s.id == x)).map f := by
  have hp : ((fun s : SessionRow => s.id == x) ∘ f) =
      (fun s : SessionRow => s.id == x) := by
    funext s
    simp [Function.comp, hid]
  rw [List.find?_map, hp]

theorem nullableEqNat_some_some (a b : Nat) :
    nullableEqNat (some a) (some b) = (a == b) := rfl

theorem nullableEqNat_none (a : Option Nat) :
    nullableEqNat a none = false := by
  cases a <;> rfl

/-- With distinct ids, `find?` by id returns exactly the member carrying
that id. -/
theorem find_unique_by_id (l : List SessionRow)
    (hnd : (l.map (fun r => r.id)).Nodup) (a : SessionRow) (ha : a ∈ l)
    (x : Nat) (hax : a.id = x) :
    l.find? (fun s => s.id == x) = some a := by
  induction l with
  | nil => cases ha
  | cons b t ih =>
      by_cases hb : (b.id == x) = true
      · rw [List.find?_cons, hb]
        rcases List.mem_cons.mp ha with rfl | hat
        · rfl
        · exfalso
          have hbid : b.id = x := by simpa using hb
          have hmem : b.id ∈ t.map (fun r => r.id) := by
            rw [hbid, ← hax]
            exact List.mem_map_of_mem _ hat
          exact (List.nodup_cons.mp hnd).1 hmem
      · rw [Bool.not_eq_true] at hb
        rw [List.find?_cons, hb]
        rcases List.mem_cons.mp ha with rfl | hat
        · rw [hax] at hb
          simp at hb
        · exact ih (by simpa using (List.nodup_cons.mp (by simpa using hnd)).2) hat

/-- ENDing a session (a status-only update) preserves well-formedness and
all round counters. -/
theorem sessionsEvolve_end (l : List SessionRow) (sid : Option Nat) :
    SessionsEvolve l (l.map fun r =>
      if nullableEqNat (some r.id) sid then { r with status := "ENDED" }
      else r) := by
  have hid : ∀ r : SessionRow,
      (if nullableEqNat (some r.id) sid then { r with status := "ENDED" }
       else r).id = r.id := by
    intro r
    split <;> rfl
  have hround : ∀ r : SessionRow,
      (if nullableEqNat (some r.id) sid then { r with status := "ENDED" }
       else r).current_round = r.current_round := by
    intro r
    split <;> rfl
  have hmax : ∀ r : SessionRow,
      (if nullableEqNat (some r.id) sid then { r with status := "ENDED" }
       else r).max_rounds = r.max_rounds := by
    intro r
    split <;> rfl
  constructor
  · rintro ⟨hb, hnd, hr⟩
    refine ⟨?_, ?_, ?_⟩
    · intro r hr'
      rcases List.mem_map.mp hr' with ⟨a, ha, rfl⟩
      rw [hid, List.length_map]
      exact hb a ha
    · have hmm : (l.map fun r =>
          if nullableEqNat (some r.id) sid then { r with status := "ENDED" }
          else r).map (fun r => r.id) = l.map (fun r => r.id) := by
        rw [List.map_map]
        apply List.map_congr_left
        intro a _
        exact hid a
      rw [hmm]
      exact hnd
    · intro r hr'
      rcases List.mem_map.mp hr' with ⟨a, ha, rfl⟩
      rw [hround, hmax]
      exact hr a ha
  · intro x r h
    rw [find?_map_id_preserving _ _ hid, h]
    exact ⟨_, rfl, by rw [hround], by rw [hmax]⟩

/-- Incrementing the round counter of the session found by `find?` —
guarded, as in `post_question`, by its round budget not being exhausted —
preserves well-formedness and monotonicity. -/
theorem sessionsEvolve_inc (l : List SessionRow) (sid : Option Nat)
    (hguard : ∀ r, l.find? (fun s => nullableEqNat (some s.id) sid) = some r →
      r.current_round < r.max_rounds) :
    SessionsEvolve l (l.map fun r =>
      if nullableEqNat (some r.id) sid then
        { r with current_round := r.current_round + 1 }
      else r) := by
  cases sid with
  | none =>
      have hmm : (l.map fun r =>
          if nullableEqNat (some r.id) none then
            { r with current_round := r.current_round + 1 }
          else r) = l := by
        rw [show (fun r : SessionRow =>
            if nullableEqNat (some r.id) none then
              { r with current_round := r.current_round + 1 }
            else r) = id from ?_, List.map_id]
        funext r
        rw [nullableEqNat_none]
        rfl
      rw [hmm]
      exact sessionsEvolve_refl l
  | some v =>
      have hid : ∀ r : SessionRow,
          (if nullableEqNat (some r.id) (some v) then
            { r with current_round := r.current_round + 1 }
           else r).id = r.id := by
        intro r
        split <;> rfl
      have hmax : ∀ r : SessionRow,
          (if nullableEqNat (some r.id) (some v) then
            { r with current_round := r.current_round + 1 }
           else r).max_rounds = r.max_rounds := by
        intro r
        split <;> rfl
      have hmono : ∀ r : SessionRow, r.current_round ≤
          (if nullableEqNat (some r.id) (some v) then
            { r with current_round := r.current_round + 1 }
           else r).current_round := by
        intro r
        split
        · exact Nat.le_succ _
        · exact le_refl _
      constructor
      · rintro ⟨hb, hnd, hr⟩
        refine ⟨?_, ?_, ?_⟩
        · intro r hr'
          rcases List.mem_map.mp hr' with ⟨a, ha, rfl⟩
          rw [hid, List.length_map]
          exact hb a ha
        · have hmm : (l.map fun r =>
              if nullableEqNat (some r.id) (some v) then
                { r with current_round := r.current_round + 1 }
              else r).map (fun r => r.id) = l.map (fun r => r.id) := by
            rw [List.map_map]
            apply List.map_congr_left
            intro a _
            exact hid a
          rw [hmm]
          exact hnd
        · intro r hr'
          rcases List.mem_map.mp hr' with ⟨a, ha, rfl⟩
          by_cases hp : nullableEqNat (some a.id) (some v) = true
          · have hav : a.id = v := by
              rw [nullableEqNat_some_some] at hp
              simpa using hp
            have hfind : l.find? (fun s => s.id == v) = some a :=
              find_unique_by_id l hnd a ha v hav
            have hfind2 : l.find? (fun s => nullableEqNat (some s.id) (some v))
                = some a := by
              rw [show (fun s : SessionRow =>
                  nullableEqNat (some s.id) (some v)) =
                  (fun s : SessionRow => s.id == v) from ?_]
              · exact hfind
              · funext s
                rw [nullableEqNat_some_some]
            have hlt := hguard a hfind2
            rw [if_pos hp]
            dsimp only
            omega
          · rw [if_neg hp]
            exact hr a ha
      · intro x r h
        rw [find?_map_id_preserving _ _ hid, h]
        exact ⟨_, rfl, hmono r, hmax r⟩

theorem record_hj_answer_sessions (db : DB) (sid qid : Option Nat)
    (n u t : String) (p : Int) :
    ((record_hj_answer db sid qid n u t p).2).sessions = db.sessions := by
  unfold record_hj_answer
  split <;> rfl

theorem ban_user_sessions (db : DB) (n : String) :
    (ban_user db n).sessions = db.sessions := by
  unfold ban_user
  split <;> rfl

theorem add_player_to_session_sessions (db : DB) (sid : Option Nat)
    (u v : String) :
    ((add_player_to_session db sid u v).2).sessions = db.sessions := by
  unfold add_player_to_session
  split <;> rfl

theorem process_answer_sessions (now : Nat) (e : Engine) (db : DB)
    (text s n : String) :
    ((process_answer now e db text s n).2).sessions = db.sessions := by
  unfold process_answer
  split
  · rfl
  · split
    · split <;> rfl
    · split
      · rfl
      · dsimp only
        repeat' split
        all_goals simp [record_hj_answer_sessions]

theorem end_hj_session_evolve (db : DB) (sid : Option Nat) :
    SessionsEvolve db.sessions (end_hj_session db sid).sessions :=
  sessionsEvolve_end db.sessions sid

theorem start_game_evolve (e : Engine) (db : DB) (a : String) :
    SessionsEvolve db.sessions (start_game e db a).db.sessions := by
  unfold start_game
  split
  · exact sessionsEvolve_refl _
  · split
    · exact sessionsEvolve_refl _
    · exact sessionsEvolve_append_new db.sessions e.max_rounds

theorem stop_game_evolve (e : Engine) (db : DB) (a : String) :
    SessionsEvolve db.sessions (stop_game e db a).db.sessions := by
  unfold stop_game
  split
  · exact sessionsEvolve_refl _
  · split
    · exact sessionsEvolve_refl _
    · show SessionsEvolve db.sessions
        (if pyTruthyNat e.session_id then end_hj_session db e.session_id
         else db).sessions
      split
      · exact end_hj_session_evolve db e.session_id
      · exact sessionsEvolve_refl _

theorem record_hj_question_sessions (db : DB) (sid : Option Nat)
    (a b : String) (c : Nat) (d : String) (cl : Nat) :
    ((record_hj_question db sid a b c d cl).2).sessions =
      db.sessions.map (fun r =>
        if nullableEqNat (some r.id) sid then
          { r with current_round := r.current_round + 1 }
        else r) := rfl

theorem record_hj_question_evolve (db : DB) (sid : Option Nat)
    (a b : String) (c : Nat) (d : String) (cl : Nat)
    (hguard : ∀ r, db.sessions.find?
        (fun s => nullableEqNat (some s.id) sid) = some r →
      r.current_round < r.max_rounds) :
    SessionsEvolve db.sessions
      ((record_hj_question db sid a b c d cl).2).sessions := by
  rw [record_hj_question_sessions]
  exact sessionsEvolve_inc _ _ hguard

theorem handle_join_evolve (e : Engine) (db : DB) (s n : String) :
    SessionsEvolve db.sessions (handle_join e db s n).db.sessions := by
  unfold handle_join
  split
  · exact sessionsEvolve_refl _
  · dsimp only
    split
    · simp only [add_player_to_session_sessions]
      exact sessionsEvolve_refl _
    · simp only [add_player_to_session_sessions]
      exact sessionsEvolve_refl _

set_option linter.unreachableTactic false in
set_option linter.unusedTactic false in
theorem handle_message_evolve (now : Nat) (e : Engine) (db : DB)
    (t s n : String) :
    SessionsEvolve db.sessions (handle_message now e db t s n).db.sessions := by
  unfold handle_message handle_message_cmd
  repeat' split
  all_goals
    first
      | exact start_game_evolve e db s
      | exact stop_game_evolve e db s
      | exact handle_join_evolve e db s n
      | (simp only [ban_user_sessions, add_player_to_session_sessions,
          process_answer_sessions]
         exact sessionsEvolve_refl _)
      | exact sessionsEvolve_refl _

theorem post_question_evolve (now k : Nat) (e : Engine) (db : DB) :
    SessionsEvolve db.sessions (post_question now k e db).db.sessions := by
  unfold post_question
  split
  · exact sessionsEvolve_refl _
  · split
    · exact end_hj_session_evolve db e.session_id
    · split
      · exact stop_game_evolve e db (e.admin_node_ids.headD "")
      · rename_i hng hav
        refine record_hj_question_evolve db e.session_id _ _ _ _ _ ?_
        intro r hfind
        have hinfo : get_hj_session_info db e.session_id =
            some (r.current_round, r.max_rounds, r.status) := by
          unfold get_hj_session_info
          rw [hfind]
          rfl
        unfold hj_game_over at hng
        rw [hinfo] at hng
        simp at hng
        omega

theorem step_evolve (c c' : Engine × DB) (h : Step c c') :
    SessionsEvolve c.2.sessions c'.2.sessions := by
  cases h with
  | msg e db now t s n => exact handle_message_evolve now e db t s n
  | question_timer_fires e db now k => exact post_question_evolve now k _ db
  | close_timer_fires e db => exact sessionsEvolve_refl _

/-- C4: across every engine event (inbound message or timer firing), the
session table stays well-formed — in particular every session keeps
`current_round ≤ max_rounds`, because `record_hj_question` (the only
round increment) is only reached when `post_question`'s budget check saw
`current_round < max_rounds` — and no session's `current_round` ever
decreases (its `max_rounds` never changes). -/
theorem current_round_monotone_and_bounded (c c' : Engine × DB)
    (h : Step c c') :
    (SessionsWF c.2.sessions → SessionsWF c'.2.sessions) ∧
    RoundsMono c.2.sessions c'.2.sessions :=
  step_evolve c c' h

/-- An engine before any game has been started. -/
def idleEngine : Engine := {
  state := GState.IDLE
  session_id := none
  current_question := none
  current_answers := []
  current_point_value := 0
  current_question_db_id := none
  question_closes_at := 0
  questions := [⟨"What port does SSH use by default?", ["22", "twenty-two"], 100⟩]
  used_questions := []
  admin_node_ids := ["admin1"]
  answer_window := 120
  break_between_questions := 60
  max_rounds := 10
  question_timer_armed := false
  close_timer_armed := false }

/-- A fresh, empty database. -/
def emptyDB : DB := ⟨[], [], [], [], []⟩

/-- Witness for C4 at a concrete step: an admin starting a game on an
empty database. -/
theorem current_round_monotone_and_bounded_witness :
    (SessionsWF emptyDB.sessions →
      SessionsWF (handle_message 0 idleEngine emptyDB "!hj start" "admin1"
        "Admin").db.sessions) ∧
    RoundsMono emptyDB.sessions
      (handle_message 0 idleEngine emptyDB "!hj start" "admin1"
        "Admin").db.sessions :=
  current_round_monotone_and_bounded (idleEngine, emptyDB)
    ((handle_message 0 idleEngine emptyDB "!hj start" "admin1" "Admin").engine,
     (handle_message 0 idleEngine emptyDB "!hj start" "admin1" "Admin").db)
    (Step.msg idleEngine emptyDB 0 "!hj start" "admin1" "Admin")

/-! ## C10 — `!join` is still accepted after a timer-path game end -/

theorem find?_map_pred_preserved (l : List SessionRow)
    (f : SessionRow → SessionRow) (p : SessionRow → Bool)
    (hp : ∀ r, p (f r) = p r) :
    (l.map f).find? p = (l.find? p).map f := by
  rw [List.find?_map]
  have hc : (p ∘ f) = p := funext hp
  rw [hc]

/-- C10: when the round budget is exhausted and the question timer fires,
`post_question` announces the end, flips the state to IDLE and ENDs the
stored session — but does not clear `session_id`. A `!join` arriving
afterwards therefore passes the `if not self.session_id` guard, is
accepted with the "You're in!" reply, and adds the player to the ended
session's roster instead of replying that no game is in progress. -/
theorem join_accepted_after_timer_termination
    (now k now2 : Nat) (e : Engine) (db : DB) (sid : Nat) (row : SessionRow)
    (sender name : String)
    (hstate : e.state = GState.ACTIVE)
    (hsid : e.session_id = some sid)
    (h0 : sid ≠ 0)
    (hfind : db.sessions.find?
      (fun s => nullableEqNat (some s.id) (some sid)) = some row)
    (hmax : row.max_rounds ≤ row.current_round)
    (hnew : db.players.any (fun p => nullableEqNat p.session_id (some sid) &&
      (p.user_id == sender)) = false) :
    (post_question now k e db).engine.state = GState.IDLE ∧
    (post_question now k e db).engine.session_id = some sid ∧
    ((post_question now k e db).db.sessions.find?
        (fun s => nullableEqNat (some s.id) (some sid))).map
      (fun r => r.status) = some "ENDED" ∧
    (post_question now k e db).db.players = db.players ∧
    (handle_message now2 (post_question now k e db).engine
        (post_question now k e db).db "!join" sender name).db.players =
      db.players ++ [⟨some sid, sender, name⟩] ∧
    (handle_message now2 (post_question now k e db).engine
        (post_question now k e db).db "!join" sender name).reply =
      "✅ You\x27re in! " ++
        toString ((db.players.filter fun pr =>
          nullableEqNat pr.session_id (some sid)).length + 1) ++
        " players joined. Good luck! 🎮" := by
  have hgo : hj_game_over db e.session_id = true := by
    unfold hj_game_over get_hj_session_info
    rw [hsid, hfind]
    simp
    omega
  have hnotidle : (e.state == GState.IDLE) = false := by
    rw [hstate]
    decide
  have hp : post_question now k e db =
      ⟨{ e with state := GState.IDLE }, end_hj_session db e.session_id,
       Out.chan "🏁 Final round complete!" :: post_final_scores e db⟩ := by
    unfold post_question
    rw [hnotidle, hgo]
    simp
  rw [hp]
  have hrowid : nullableEqNat (some row.id) (some sid) = true :=
    @List.find?_some SessionRow
      (fun s => nullableEqNat (some s.id) (some sid)) row db.sessions hfind
  have hdispatch : ∀ (e' : Engine) (db' : DB),
      handle_message now2 e' db' "!join" sender name =
        handle_join e' db' sender name := by
    intro e' db'
    unfold handle_message handle_message_cmd
    rw [show pyStrip (pyLower "!join") = "!join" from by decide]
    simp +decide
  refine ⟨rfl, hsid, ?_, rfl, ?_, ?_⟩
  · show ((end_hj_session db e.session_id).sessions.find?
        (fun s => nullableEqNat (some s.id) (some sid))).map
      (fun r => r.status) = some "ENDED"
    unfold end_hj_session
    rw [hsid]
    rw [find?_map_pred_preserved db.sessions _
      (fun s => nullableEqNat (some s.id) (some sid))
      (by intro r; split <;> rfl)]
    rw [hfind]
    simp [hrowid]
  · rw [hdispatch]
    unfold handle_join
    have ht : (!pyTruthyNat ({ e with state := GState.IDLE } :
        Engine).session_id) = false := by
      show (!pyTruthyNat e.session_id) = false
      rw [hsid]
      simp [pyTruthyNat, h0]
    rw [ht]
    simp only [Bool.false_eq_true, if_false]
    unfold add_player_to_session
    rw [show (end_hj_session db e.session_id).players = db.players from rfl]
    rw [show ({ e with state := GState.IDLE } : Engine).session_id =
      e.session_id from rfl, hsid, hnew]
    simp
  · rw [hdispatch]
    unfold handle_join
    have ht : (!pyTruthyNat ({ e with state := GState.IDLE } :
        Engine).session_id) = false := by
      show (!pyTruthyNat e.session_id) = false
      rw [hsid]
      simp [pyTruthyNat, h0]
    rw [ht]
    simp only [Bool.false_eq_true, if_false]
    unfold add_player_to_session
    rw [show (end_hj_session db e.session_id).players = db.players from rfl]
    rw [show ({ e with state := GState.IDLE } : Engine).session_id =
      e.session_id from rfl, hsid, hnew]
    simp only [Bool.false_eq_true, if_false]
    unfold get_session_players
    simp [List.filter_append, nullableEqNat_some_some]
    rfl

/-- A database whose only session has used up its round budget. -/
def endedRoundsDB : DB := {
  sessions := [⟨1, "ACTIVE", 10, 10⟩]
  players := []
  questions := []
  answers := []
  banned := [] }

/-- Witness for C10 at a concrete exhausted game. -/
theorem join_accepted_after_timer_termination_witness :
    (post_question 0 0 activeEngine endedRoundsDB).engine.state =
      GState.IDLE ∧
    (post_question 0 0 activeEngine endedRoundsDB).engine.session_id =
      some 1 ∧
    ((post_question 0 0 activeEngine endedRoundsDB).db.sessions.find?
        (fun s => nullableEqNat (some s.id) (some 1))).map
      (fun r => r.status) = some "ENDED" ∧
    (post_question 0 0 activeEngine endedRoundsDB).db.players =
      endedRoundsDB.players ∧
    (handle_message 5 (post_question 0 0 activeEngine endedRoundsDB).engine
        (post_question 0 0 activeEngine endedRoundsDB).db "!join" "p9"
        "P9").db.players =
      endedRoundsDB.players ++ [⟨some 1, "p9", "P9"⟩] ∧
    (handle_message 5 (post_question 0 0 activeEngine endedRoundsDB).engine
        (post_question 0 0 activeEngine endedRoundsDB).db "!join" "p9"
        "P9").reply =
      "✅ You\x27re in! " ++
        toString ((endedRoundsDB.players.filter fun pr =>
          nullableEqNat pr.session_id (some 1)).length + 1) ++
        " players joined. Good luck! 🎮" :=
  join_accepted_after_timer_termination 0 0 5 activeEngine endedRoundsDB 1
    ⟨1, "ACTIVE", 10, 10⟩ "p9" "P9" rfl rfl (by decide) (by decide)
    (by decide) (by decide)
